import Mathlib

/-!
Shallow embedding of the `senso_py` sensor-registry code, covering:
* `src/source/sensors.py` — parameter-pack variant with range-checked
  constructors (namespace-free `P`-prefixed model, `SensorsPy` registry);
* `src/source/sensors_consolidated.py` — builder variant with per-kind
  bus-resource validators (`C`-prefixed model, `SensorsConsolidated` registry);
* the read-result dispatch of `src/source/sensors_builder_validatedjson.py`;
* the shared-default-argument aliasing of `Sensors.__init__(self, sensors=[])`.

Integers are modelled as `Int` (Python ints do not overflow at these ranges),
strings as `String` where the empty string stands for a Python falsy string.
-/

/-- Constant `MAX_BAUD_RATE = 921400` from the source. -/
def MAX_BAUD_RATE : Int := 921400

/-- Constant `MIN_BAUD_RATE = 2400` from the source. -/
def MIN_BAUD_RATE : Int := 2400

/-- Constant `MAX_CS_VAL = 7` from the source. -/
def MAX_CS_VAL : Int := 7

/-- Constant `MAX_I2C_ADDR = 127` from the source. -/
def MAX_I2C_ADDR : Int := 127

/-- The positional parameter pack passed to `add_sensor`, e.g.
`("i2c", 2, 78, "BM280", "RHT-sensor1")`: a kind tag, a bus/port number,
a kind-specific numeric field (address / chip-select / baud rate), a device
name and an alias. -/
structure PPack where
  kind : String
  f1 : Int
  f2 : Int
  dev_name : String
  «alias» : String
deriving DecidableEq, Repr

/-! ## Model A: `src/source/sensors.py` (range-checked constructors) -/

/-- `SensorBase` of `sensors.py`: common fields set by `SensorBase.__init__`
(the bound `read` function is a static per-kind mock and is omitted as it
carries no data). -/
structure SensorBase where
  bus_no : Int
  dev_name : String
  «alias» : String
deriving DecidableEq, Repr

/-- `SensorBase.__init__`: falsy (`None`/empty) `dev_name` and `alias`
default to `"none"`. -/
def SensorBase_init (bus_no : Int) (dev_name «alias» : String) : SensorBase :=
  { bus_no := bus_no,
    dev_name := if dev_name = "" then "none" else dev_name,
    «alias» := if «alias» = "" then "none" else «alias» }

/-- A constructed sensor object of `sensors.py`: one of the three subclasses
`I2cSensor`, `SpiSensor`, `UartSensor` of `SensorBase`, each holding its
kind-specific field plus the inherited base fields. -/
inductive PSensor where
  | I2cSensor (i2c_addr : Int) (base : SensorBase)
  | SpiSensor (cs_no : Int) (base : SensorBase)
  | UartSensor (baud_rate : Int) (base : SensorBase)
deriving DecidableEq, Repr

/-- `I2cSensor.__init__` of `sensors.py`: raises `ValueError` (modelled as
`Except.error`) when the address is outside `[0, MAX_I2C_ADDR]`. -/
def I2cSensor_init (bus_no i2c_addr : Int) (dev_name «alias» : String) :
    Except String PSensor :=
  if i2c_addr < 0 ∨ i2c_addr > MAX_I2C_ADDR then
    Except.error "Invalid I2C-address specified!"
  else
    Except.ok (PSensor.I2cSensor i2c_addr (SensorBase_init bus_no dev_name «alias»))

/-- `SpiSensor.__init__` of `sensors.py`: raises `ValueError` when the
chip-select number is outside `[0, MAX_CS_VAL]`. -/
def SpiSensor_init (bus_no cs_no : Int) (dev_name «alias» : String) :
    Except String PSensor :=
  if cs_no < 0 ∨ cs_no > MAX_CS_VAL then
    Except.error "Invalid CS-number specified!"
  else
    Except.ok (PSensor.SpiSensor cs_no (SensorBase_init bus_no dev_name «alias»))

/-- `UartSensor.__init__` of `sensors.py`: raises `ValueError` when the baud
rate is outside `[MIN_BAUD_RATE, MAX_BAUD_RATE]`. -/
def UartSensor_init (bus_no baud_rate : Int) (dev_name «alias» : String) :
    Except String PSensor :=
  if baud_rate < MIN_BAUD_RATE ∨ baud_rate > MAX_BAUD_RATE then
    Except.error "Invalid baud-rate specified!"
  else
    Except.ok (PSensor.UartSensor baud_rate (SensorBase_init bus_no dev_name «alias»))

/-- Outcome of `Sensors.add_sensor` in `sensors.py`:
* `ok` — sensor constructed and appended;
* `caughtError msg` — an exception was raised inside the `try` block and
  caught by the `except` handler (a structured message is printed);
* `keyError` — the `self.sensor_type_map[type]` lookup failed for an unknown
  kind tag; this lookup happens before the `try` block, so the `KeyError`
  propagates uncaught past `add_sensor`. -/
inductive AddResult where
  | ok
  | caughtError (msg : String)
  | keyError
deriving DecidableEq, Repr

/-- `Sensors.add_sensor` of `sensors.py`: looks up the constructor by kind tag
(uncaught `KeyError` for an unknown tag), constructs the sensor inside a
`try` block (no collision validation in this variant — the source has
`TODO: validate sensor instance BEFORE appending to list!`), appends on
success, catches construction exceptions. Returns the outcome and the new
sensors list. -/
def SensorsPy.add_sensor (sensors : List PSensor) (ppack : PPack) :
    AddResult × List PSensor :=
  if ppack.kind = "i2c" then
    match I2cSensor_init ppack.f1 ppack.f2 ppack.dev_name ppack.«alias» with
    | Except.ok sensor => (AddResult.ok, sensors ++ [sensor])
    | Except.error msg => (AddResult.caughtError msg, sensors)
  else if ppack.kind = "spi" then
    match SpiSensor_init ppack.f1 ppack.f2 ppack.dev_name ppack.«alias» with
    | Except.ok sensor => (AddResult.ok, sensors ++ [sensor])
    | Except.error msg => (AddResult.caughtError msg, sensors)
  else if ppack.kind = "uart" then
    match UartSensor_init ppack.f1 ppack.f2 ppack.dev_name ppack.«alias» with
    | Except.ok sensor => (AddResult.ok, sensors ++ [sensor])
    | Except.error msg => (AddResult.caughtError msg, sensors)
  else
    (AddResult.keyError, sensors)

/-- `True` iff the construction succeeded (the `Except` carries a sensor). -/
def constructionOk (r : Except String PSensor) : Bool :=
  match r with
  | Except.ok _ => true
  | Except.error _ => false

/-! ## Model B: `src/source/sensors_consolidated.py` (builder + validators) -/

/-- `ExternalSensorBase` of `sensors_consolidated.py`: the fields holding data
(`config`/`read` are static per-kind functions and `bus_prop1` a fixed string,
all omitted).  `bus_no` is `Option Int` because `__init__` leaves it `None`;
`SensorBuilder.with_field` later overwrites it from the parameter pack. -/
structure ExternalSensorBase where
  type_name : String
  bus_no : Option Int
  dev_name : String
  «alias» : String
deriving DecidableEq, Repr

/-- `ExternalSensorBase.__init__` as invoked by the three sensor subclasses:
only `type_name` is passed, so `bus_no = None` and `dev_name`/`alias`
default to `"none"`. -/
def ExternalSensorBase_init (type_name : String) : ExternalSensorBase :=
  { type_name := type_name, bus_no := none, dev_name := "none", «alias» := "none" }

/-- A sensor object of `sensors_consolidated.py`: one of the classes
`I2cSensor`, `SpiSensor`, `UartSensor`, each holding its `base` object and its
own kind-specific attribute (`Option Int`: `None` until the builder sets it).
`UartSensor` additionally has its own `bus_no` attribute (distinct from
`base.bus_no`), set to `None` in `__init__`. -/
inductive CSensor where
  | I2cSensor (base : ExternalSensorBase) (i2c_addr : Option Int)
  | SpiSensor (base : ExternalSensorBase) (cs_no : Option Int)
  | UartSensor (base : ExternalSensorBase) (bus_no_self : Option Int) (baud_rate : Option Int)
deriving DecidableEq, Repr

/-- Attribute access `sensor.base`. -/
def CSensor.base : CSensor → ExternalSensorBase
  | CSensor.I2cSensor b _ => b
  | CSensor.SpiSensor b _ => b
  | CSensor.UartSensor b _ _ => b

/-- Attribute access `sensor.i2c_addr` (`none` models a missing attribute;
only ever read on sensors of `type_name = "i2c"`, which carry it). -/
def CSensor.i2c_addrAttr : CSensor → Option Int
  | CSensor.I2cSensor _ a => a
  | _ => none

/-- Attribute access `sensor.cs_no` (`none` models a missing attribute). -/
def CSensor.cs_noAttr : CSensor → Option Int
  | CSensor.SpiSensor _ c => c
  | _ => none

/-- `Sensors.build_sensor` for kind `"i2c"`, specialised to
`i2c_prop_list = [bus_no, i2c_addr, dev_name, alias]`:
the raw `I2cSensor(base_type=ExternalSensorBase)` object has
`base = ExternalSensorBase_init "i2c"` and `i2c_addr = None`; then
`SensorBuilder.with_field` routes `bus_no`, `dev_name`, `alias` into the base
object (they exist in the base `__dict__`) and `i2c_addr` onto the sensor
object itself.  Note the `dev_name`/`alias` values are written directly, with
no `"none"`-defaulting.  Construction never fails: this variant has no range
checks on the address. -/
def SensorsConsolidated.build_sensor_i2c (bus_no i2c_addr : Int)
    (dev_name «alias» : String) : CSensor :=
  CSensor.I2cSensor
    { ExternalSensorBase_init "i2c" with
        bus_no := some bus_no, dev_name := dev_name, «alias» := «alias» }
    (some i2c_addr)

/-- `Sensors.build_sensor` for kind `"spi"`, specialised to
`spi_prop_list = [bus_no, cs_no, dev_name, alias]` (same routing as for I2C). -/
def SensorsConsolidated.build_sensor_spi (bus_no cs_no : Int)
    (dev_name «alias» : String) : CSensor :=
  CSensor.SpiSensor
    { ExternalSensorBase_init "spi" with
        bus_no := some bus_no, dev_name := dev_name, «alias» := «alias» }
    (some cs_no)

/-- `Sensors.build_sensor` for kind `"uart"`, specialised to
`uart_prop_list = [bus_no, baud_rate, dev_name, alias]`: `with_field` routes
`bus_no` into the base object (it exists there), so the `UartSensor`'s own
`bus_no` attribute stays `None`; `baud_rate` is set on the sensor object. -/
def SensorsConsolidated.build_sensor_uart (bus_no baud_rate : Int)
    (dev_name «alias» : String) : CSensor :=
  CSensor.UartSensor
    { ExternalSensorBase_init "uart" with
        bus_no := some bus_no, dev_name := dev_name, «alias» := «alias» }
    none
    (some baud_rate)

/-- `Sensors.get_i2c_sensors`: the registered sensors whose
`base.type_name` equals `"i2c"`, in registration order. -/
def SensorsConsolidated.get_i2c_sensors (sensors : List CSensor) : List CSensor :=
  sensors.filter (fun sensor => sensor.base.type_name == "i2c")

/-- `Sensors.get_spi_sensors`. -/
def SensorsConsolidated.get_spi_sensors (sensors : List CSensor) : List CSensor :=
  sensors.filter (fun sensor => sensor.base.type_name == "spi")

/-- `Sensors.get_uart_sensors`. -/
def SensorsConsolidated.get_uart_sensors (sensors : List CSensor) : List CSensor :=
  sensors.filter (fun sensor => sensor.base.type_name == "uart")

/-- `Sensors.i2c_validate`: scans the registered I2C sensors and returns
`False` on the first one whose `i2c_addr` equals the candidate's — comparing
only the address, not the bus number.  Returns `True` when no collision is
found. -/
def SensorsConsolidated.i2c_validate (sensors : List CSensor) (sensor : CSensor) : Bool :=
  (SensorsConsolidated.get_i2c_sensors sensors).all
    (fun i2c_sensor => !(decide (sensor.i2c_addrAttr = i2c_sensor.i2c_addrAttr)))

/-- `Sensors.spi_validate`: rejects when some registered SPI sensor has both
the same `base.bus_no` and the same `cs_no` as the candidate. -/
def SensorsConsolidated.spi_validate (sensors : List CSensor) (sensor : CSensor) : Bool :=
  (SensorsConsolidated.get_spi_sensors sensors).all
    (fun spi_sensor => !(decide (sensor.base.bus_no = spi_sensor.base.bus_no ∧
                                 sensor.cs_noAttr = spi_sensor.cs_noAttr)))

/-- `Sensors.uart_validate`: rejects when some registered UART sensor has the
same `base.bus_no` (serial port) as the candidate — the baud rate is not
compared. -/
def SensorsConsolidated.uart_validate (sensors : List CSensor) (sensor : CSensor) : Bool :=
  (SensorsConsolidated.get_uart_sensors sensors).all
    (fun uart_sensor => !(decide (sensor.base.bus_no = uart_sensor.base.bus_no)))

/-- Outcome of `Sensors.add_sensor` in `sensors_consolidated.py`:
* `ok` — sensor built, validated and appended;
* `caughtError msg` — an exception was raised inside the `try` block (the
  validator-failure `raise Exception("Parameter ERROR: ...")`) and caught by
  the `except` handler;
* `keyError` — the `sensor_type_map[sensor_type]` lookup failed for an
  unknown kind tag; this lookup happens before the `try` block, so the
  `KeyError` propagates uncaught past `add_sensor`. -/
inductive CAddResult where
  | ok
  | caughtError (msg : String)
  | keyError
deriving DecidableEq, Repr

/-- `Sensors.add_sensor` of `sensors_consolidated.py`: resolves the sensor
class from `sensor_type_map` (uncaught `KeyError` for an unknown tag), builds
the sensor from `ppack[1:]` via `build_sensor`, runs the kind's validator
against the current contents, and appends only when validation passes; a
validation failure raises an exception that the `except` block catches. -/
def SensorsConsolidated.add_sensor (sensors : List CSensor) (ppack : PPack) :
    CAddResult × List CSensor :=
  if ppack.kind = "i2c" then
    let sensor := SensorsConsolidated.build_sensor_i2c ppack.f1 ppack.f2
      ppack.dev_name ppack.«alias»
    if SensorsConsolidated.i2c_validate sensors sensor then
      (CAddResult.ok, sensors ++ [sensor])
    else
      (CAddResult.caughtError "Parameter ERROR: cannot add sensor to sensor-list!", sensors)
  else if ppack.kind = "spi" then
    let sensor := SensorsConsolidated.build_sensor_spi ppack.f1 ppack.f2
      ppack.dev_name ppack.«alias»
    if SensorsConsolidated.spi_validate sensors sensor then
      (CAddResult.ok, sensors ++ [sensor])
    else
      (CAddResult.caughtError "Parameter ERROR: cannot add sensor to sensor-list!", sensors)
  else if ppack.kind = "uart" then
    let sensor := SensorsConsolidated.build_sensor_uart ppack.f1 ppack.f2
      ppack.dev_name ppack.«alias»
    if SensorsConsolidated.uart_validate sensors sensor then
      (CAddResult.ok, sensors ++ [sensor])
    else
      (CAddResult.caughtError "Parameter ERROR: cannot add sensor to sensor-list!", sensors)
  else
    (CAddResult.keyError, sensors)

/-- `Sensors.list_sensors` of `sensors_consolidated.py`: iterates
`self.sensors` in order, calling `get_info()` on each.  The observable value
is the ordered sequence of descriptors visited. -/
def SensorsConsolidated.list_sensors (sensors : List CSensor) : List CSensor :=
  sensors

/-! ## Read-result dispatch of `src/source/sensors_builder_validatedjson.py` -/

/-- `ComplexValue` from `sensor_drivers`: `{triggered, channel, ch_val}`.
The `ch_val` payload is a Python float; it is carried opaquely (never
computed with), so it is modelled by a type parameter. -/
structure ComplexValue (α : Type) where
  triggered : Bool
  channel : Int
  ch_val : α
deriving DecidableEq, Repr

/-- The possible shapes of a sensor readout value as classified by
`Sensors.read_sensors`: a float (scalar), a list of ints, a `ComplexValue`
(structured), or any other value. -/
inductive ReadValue (α : Type) where
  | floatVal (v : α)
  | listVal (vs : List Int)
  | complexVal (cv : ComplexValue α)
  | otherVal
deriving DecidableEq, Repr

/-- The output of one iteration of `Sensors.read_sensors` in
`sensors_builder_validatedjson.py`: a single scalar line, an
index-enumerated line per list element, the three `ComplexValue` fields, or
the `"ERROR: cannot parse sensor readout result!"` report. -/
inductive ReadDisplay (α : Type) where
  | scalarLine (v : α)
  | valueLines (ls : List (Nat × Int))
  | complexFields (triggered : Bool) (channel : Int) (ch_val : α)
  | parseError
deriving DecidableEq, Repr

/-- The per-value classification performed by `Sensors.read_sensors` of
`sensors_builder_validatedjson.py`:
`if type(val) is not float:` → `if type(val) is list:` enumerate the elements
with their positional index; `elif isinstance(val, ComplexValue):` emit the
three fields; `else` report a parse error; a float falls through to the
single-value line. -/
def read_dispatch {α : Type} : ReadValue α → ReadDisplay α
  | ReadValue.floatVal v => ReadDisplay.scalarLine v
  | ReadValue.listVal vs => ReadDisplay.valueLines vs.enum
  | ReadValue.complexVal cv => ReadDisplay.complexFields cv.triggered cv.channel cv.ch_val
  | ReadValue.otherVal => ReadDisplay.parseError

/-! ## Shared mutable default argument `Sensors.__init__(self, sensors=[])` -/

/-- A heap of Python list objects, addressed by cell index. -/
structure PyListHeap where
  cells : List (List PSensor)
deriving DecidableEq, Repr

/-- Read the list object at cell `r`. -/
def PyListHeap.get (h : PyListHeap) (r : Nat) : List PSensor :=
  (h.cells.get? r).getD []

/-- Overwrite the list object at cell `r` (in-place mutation of a Python
list, observed by every reference to the same object). -/
def PyListHeap.set (h : PyListHeap) (r : Nat) (v : List PSensor) : PyListHeap :=
  ⟨h.cells.set r v⟩

/-- The heap as it stands after the class statement of `sensors.py` is
executed: Python evaluates the default expression `sensors=[]` once, at
function-definition time, allocating a single empty list object (cell 0). -/
def sensors_default_heap : PyListHeap := ⟨[[]]⟩

/-- A `Sensors` object: holds a reference to its `self.sensors` list. -/
structure SensorsObj where
  sensorsRef : Nat
deriving DecidableEq, Repr

/-- `Sensors()` constructed without an explicit `sensors` argument: binds
`self.sensors` to the one default list object (cell 0).  Every such
construction returns a reference to the same cell — no new list is
allocated. -/
def Sensors_init_default : SensorsObj := ⟨0⟩

/-- `Sensors(sensors=<fresh list>)` constructed with an explicit argument:
allocates a new cell holding the given list and binds `self.sensors` to it. -/
def Sensors_init_with (h : PyListHeap) (init : List PSensor) : SensorsObj × PyListHeap :=
  (⟨h.cells.length⟩, ⟨h.cells ++ [init]⟩)

/-- `self.add_sensor(ppack)` as a method call on a `Sensors` object: reads
`self.sensors` from the heap, runs the `sensors.py` add logic, and writes the
resulting list back through the same reference. -/
def SensorsPy.add_sensor_method (h : PyListHeap) (self : SensorsObj) (ppack : PPack) :
    AddResult × PyListHeap :=
  let res := SensorsPy.add_sensor (h.get self.sensorsRef) ppack
  (res.1, h.set self.sensorsRef res.2)

/-! ## Derived helpers for the claims -/

/-- The sensor that `Sensors.add_sensor` of `sensors_consolidated.py` builds
for a given parameter pack (`none` for an unknown kind tag). -/
def built_sensor (ppack : PPack) : Option CSensor :=
  if ppack.kind = "i2c" then
    some (SensorsConsolidated.build_sensor_i2c ppack.f1 ppack.f2 ppack.dev_name ppack.«alias»)
  else if ppack.kind = "spi" then
    some (SensorsConsolidated.build_sensor_spi ppack.f1 ppack.f2 ppack.dev_name ppack.«alias»)
  else if ppack.kind = "uart" then
    some (SensorsConsolidated.build_sensor_uart ppack.f1 ppack.f2 ppack.dev_name ppack.«alias»)
  else
    none

/-- Run a sequence of `add_sensor` calls on a `sensors_consolidated.py`
registry, keeping only the final registry state. -/
def add_all (sensors : List CSensor) (ppacks : List PPack) : List CSensor :=
  ppacks.foldl (fun s p => (SensorsConsolidated.add_sensor s p).2) sensors

/-- `True` iff every `add_sensor` call in the sequence succeeds, each one
running against the registry state left by the previous calls. -/
def all_adds_ok : List CSensor → List PPack → Bool
  | _, [] => true
  | s, p :: ps =>
    (decide ((SensorsConsolidated.add_sensor s p).1 = CAddResult.ok)) &&
      all_adds_ok (SensorsConsolidated.add_sensor s p).2 ps

/-- The field-domain predicate of claim C10 on a `sensors.py` sensor: the
kind-specific field lies in the closed range its constructor checks. -/
def in_domain : PSensor → Bool
  | PSensor.I2cSensor i2c_addr _ => decide (0 ≤ i2c_addr ∧ i2c_addr ≤ MAX_I2C_ADDR)
  | PSensor.SpiSensor cs_no _ => decide (0 ≤ cs_no ∧ cs_no ≤ MAX_CS_VAL)
  | PSensor.UartSensor baud_rate _ => decide (MIN_BAUD_RATE ≤ baud_rate ∧ baud_rate ≤ MAX_BAUD_RATE)

/-- Registry states of the `sensors.py` variant reachable from the empty
registry by `add_sensor` calls. -/
inductive ReachablePy : List PSensor → Prop where
  | base : ReachablePy []
  | step (s : List PSensor) (p : PPack) :
      ReachablePy s → ReachablePy (SensorsPy.add_sensor s p).2

/-! ## Claim theorems -/

/-- C6: construction accepts exactly the closed integer domains and fails
with a construction error outside them — for all inputs the I2C constructor
succeeds iff the address is in `[0, 127]`, the SPI constructor iff the
chip-select is in `[0, 7]`, the UART constructor iff the baud rate is in
`[2400, 921400]` — in particular at the boundary points: I2C address 0 and
127 accepted, -1 and 128 rejected; SPI chip-select 0 and 7 accepted, 8
rejected; UART baud 2400 and 921400 accepted, 2399 and 921401 rejected. -/
theorem c6_construction_boundaries :
    (∀ (bus_no i2c_addr : Int) (dn al : String),
      constructionOk (I2cSensor_init bus_no i2c_addr dn al) =
        decide (0 ≤ i2c_addr ∧ i2c_addr ≤ 127)) ∧
    (∀ (bus_no cs_no : Int) (dn al : String),
      constructionOk (SpiSensor_init bus_no cs_no dn al) =
        decide (0 ≤ cs_no ∧ cs_no ≤ 7)) ∧
    (∀ (bus_no baud_rate : Int) (dn al : String),
      constructionOk (UartSensor_init bus_no baud_rate dn al) =
        decide (2400 ≤ baud_rate ∧ baud_rate ≤ 921400)) ∧
    constructionOk (I2cSensor_init 2 0 "d" "a") = true ∧
    constructionOk (I2cSensor_init 2 127 "d" "a") = true ∧
    constructionOk (I2cSensor_init 2 (-1) "d" "a") = false ∧
    constructionOk (I2cSensor_init 2 128 "d" "a") = false ∧
    constructionOk (SpiSensor_init 1 0 "d" "a") = true ∧
    constructionOk (SpiSensor_init 1 7 "d" "a") = true ∧
    constructionOk (SpiSensor_init 1 8 "d" "a") = false ∧
    constructionOk (UartSensor_init 4 2400 "d" "a") = true ∧
    constructionOk (UartSensor_init 4 921400 "d" "a") = true ∧
    constructionOk (UartSensor_init 4 2399 "d" "a") = false ∧
    constructionOk (UartSensor_init 4 921401 "d" "a") = false := by
  refine ⟨?_, ?_, ?_, ?_, ?_, ?_, ?_, ?_, ?_, ?_, ?_, ?_, ?_, ?_⟩ <;>
    first
    | decide
    | (intro bus_no x dn al
       simp only [I2cSensor_init, SpiSensor_init, UartSensor_init,
         MAX_I2C_ADDR, MAX_CS_VAL, MIN_BAUD_RATE, MAX_BAUD_RATE]
       split <;> rename_i hcond <;> symm
       · simp only [constructionOk, decide_eq_false_iff_not]
         omega
       · simp only [constructionOk, decide_eq_true_eq]
         omega)

/-- C9: the claim that every `Sensors()` registry owns its own sensor list
fails on the code — `Sensors.__init__(self, sensors=[])` evaluates the `[]`
default once, so all default-constructed registries alias one shared list
object.  Concretely: both `r1 = Sensors()` and `r2 = Sensors()` bind
`self.sensors` to heap cell 0 (`Sensors_init_default`); after one successful
`add_sensor(("i2c", 2, 78, "BM280", "RHT-sensor1"))` through `r1`, the
sequence observed through `r2` has length 1, not 0. -/
theorem c9_shared_default_argument_eval :
    (PyListHeap.get sensors_default_heap Sensors_init_default.sensorsRef).length = 0 ∧
    (PyListHeap.get
        (SensorsPy.add_sensor_method sensors_default_heap Sensors_init_default
          ⟨"i2c", 2, 78, "BM280", "RHT-sensor1"⟩).2
        Sensors_init_default.sensorsRef).length = 1 := by
  decide

/-- C8: the read dispatch of `sensors_builder_validatedjson.py` classifies
each of the three defined readout shapes to its output — a float to a single
scalar line, a list to one index-enumerated line per element, a
`ComplexValue` to its three named fields — and reports a parse error only
for values of none of the three shapes. -/
theorem c8_read_dispatch_total_on_shapes :
    ∀ (α : Type) (v : α) (vs : List Int) (cv : ComplexValue α),
      read_dispatch (ReadValue.floatVal v) = ReadDisplay.scalarLine v ∧
      read_dispatch (ReadValue.listVal vs : ReadValue α) = ReadDisplay.valueLines vs.enum ∧
      read_dispatch (ReadValue.complexVal cv) =
        ReadDisplay.complexFields cv.triggered cv.channel cv.ch_val ∧
      (∀ r : ReadValue α, r ≠ ReadValue.otherVal → read_dispatch r ≠ ReadDisplay.parseError) := by
  intro α v vs cv
  refine ⟨rfl, rfl, rfl, ?_⟩
  intro r hr
  cases r with
  | floatVal v' => simp [read_dispatch]
  | listVal vs' => simp [read_dispatch]
  | complexVal cv' => simp [read_dispatch]
  | otherVal => exact absurd rfl hr

/-- Witness for C8 at concrete inputs: a scalar readout of `5` yields the
scalar line, and the list readout `[3, 4, 5]` (the mock UART value) is not a
parse error. -/
theorem c8_witness :
    read_dispatch (ReadValue.floatVal (5 : Int)) = ReadDisplay.scalarLine 5 ∧
    read_dispatch (ReadValue.listVal [3, 4, 5] : ReadValue Int) ≠ ReadDisplay.parseError :=
  ⟨(c8_read_dispatch_total_on_shapes Int 5 [3, 4, 5] ⟨true, 7, 8⟩).1,
   (c8_read_dispatch_total_on_shapes Int 5 [3, 4, 5] ⟨true, 7, 8⟩).2.2.2
     (ReadValue.listVal [3, 4, 5]) (by decide)⟩

/-- C1: for any two valid I2C parameter packs with equal `(busNumber, address)`,
adding both to an empty `sensors_consolidated.py` registry accepts the first
(registry then holds exactly one entry) and rejects the second with the
resource-conflict error caught at the `add_sensor` boundary, leaving the
registry unchanged. -/
theorem c1_i2c_duplicate_key_conflict :
    ∀ (a b : PPack),
      a.kind = "i2c" → b.kind = "i2c" →
      0 ≤ a.f2 → a.f2 ≤ MAX_I2C_ADDR → 0 ≤ b.f2 → b.f2 ≤ MAX_I2C_ADDR →
      a.f1 = b.f1 → a.f2 = b.f2 →
      (SensorsConsolidated.add_sensor [] a).1 = CAddResult.ok ∧
      (SensorsConsolidated.add_sensor [] a).2.length = 1 ∧
      (SensorsConsolidated.add_sensor (SensorsConsolidated.add_sensor [] a).2 b).1
        = CAddResult.caughtError "Parameter ERROR: cannot add sensor to sensor-list!" ∧
      (SensorsConsolidated.add_sensor (SensorsConsolidated.add_sensor [] a).2 b).2
        = (SensorsConsolidated.add_sensor [] a).2 := by
  intro a b hka hkb h1 h2 h3 h4 hf1 hf2
  obtain ⟨ak, af1, af2, adn, aal⟩ := a
  obtain ⟨bk, bf1, bf2, bdn, bal⟩ := b
  simp only [PPack.kind] at hka hkb
  simp only [PPack.f1, PPack.f2] at hf1 hf2 h1 h2 h3 h4
  subst hka hkb hf1 hf2
  simp [SensorsConsolidated.add_sensor, SensorsConsolidated.i2c_validate,
    SensorsConsolidated.get_i2c_sensors, SensorsConsolidated.build_sensor_i2c,
    ExternalSensorBase_init, CSensor.i2c_addrAttr, CSensor.base]

/-- Witness for C1 at the spec scenario: I2C `(bus=2, addr=78)` twice. -/
theorem c1_witness :
    (SensorsConsolidated.add_sensor [] ⟨"i2c", 2, 78, "BM280", "RHT-sensor1"⟩).1
      = CAddResult.ok ∧
    (SensorsConsolidated.add_sensor [] ⟨"i2c", 2, 78, "BM280", "RHT-sensor1"⟩).2.length = 1 ∧
    (SensorsConsolidated.add_sensor
        (SensorsConsolidated.add_sensor [] ⟨"i2c", 2, 78, "BM280", "RHT-sensor1"⟩).2
        ⟨"i2c", 2, 78, "BM281", "sensor2C"⟩).1
      = CAddResult.caughtError "Parameter ERROR: cannot add sensor to sensor-list!" ∧
    (SensorsConsolidated.add_sensor
        (SensorsConsolidated.add_sensor [] ⟨"i2c", 2, 78, "BM280", "RHT-sensor1"⟩).2
        ⟨"i2c", 2, 78, "BM281", "sensor2C"⟩).2
      = (SensorsConsolidated.add_sensor [] ⟨"i2c", 2, 78, "BM280", "RHT-sensor1"⟩).2 :=
  c1_i2c_duplicate_key_conflict
    ⟨"i2c", 2, 78, "BM280", "RHT-sensor1"⟩ ⟨"i2c", 2, 78, "BM281", "sensor2C"⟩
    rfl rfl (by decide) (by decide) (by decide) (by decide) rfl rfl

/-- C2 counterexample: two valid I2C packs with equal address 5 but different
bus numbers 1 and 2 — the claim says both are accepted with no conflict, but
the second add is rejected with the caught resource-conflict error and the
registry keeps a single entry, because `i2c_validate` compares only
`i2c_addr` and ignores `bus_no`. -/
theorem c2_counterexample :
    (SensorsConsolidated.add_sensor [] ⟨"i2c", 1, 5, "d1", "a1"⟩).1 = CAddResult.ok ∧
    (SensorsConsolidated.add_sensor
        (SensorsConsolidated.add_sensor [] ⟨"i2c", 1, 5, "d1", "a1"⟩).2
        ⟨"i2c", 2, 5, "d2", "a2"⟩).1
      = CAddResult.caughtError "Parameter ERROR: cannot add sensor to sensor-list!" ∧
    (SensorsConsolidated.add_sensor
        (SensorsConsolidated.add_sensor [] ⟨"i2c", 1, 5, "d1", "a1"⟩).2
        ⟨"i2c", 2, 5, "d2", "a2"⟩).2.length = 1 := by
  decide

/-- C2 (amended): for any two valid I2C packs with equal address and
different bus numbers, the first add is accepted and the second is rejected
with the caught resource-conflict error, leaving the registry unchanged —
`i2c_validate` compares the address only, so a differing bus number does not
avoid the conflict. -/
theorem c2_i2c_same_addr_diff_bus_conflict :
    ∀ (a b : PPack),
      a.kind = "i2c" → b.kind = "i2c" →
      0 ≤ a.f2 → a.f2 ≤ MAX_I2C_ADDR → 0 ≤ b.f2 → b.f2 ≤ MAX_I2C_ADDR →
      a.f1 ≠ b.f1 → a.f2 = b.f2 →
      (SensorsConsolidated.add_sensor [] a).1 = CAddResult.ok ∧
      (SensorsConsolidated.add_sensor (SensorsConsolidated.add_sensor [] a).2 b).1
        = CAddResult.caughtError "Parameter ERROR: cannot add sensor to sensor-list!" ∧
      (SensorsConsolidated.add_sensor (SensorsConsolidated.add_sensor [] a).2 b).2
        = (SensorsConsolidated.add_sensor [] a).2 := by
  intro a b hka hkb h1 h2 h3 h4 hf1 hf2
  obtain ⟨ak, af1, af2, adn, aal⟩ := a
  obtain ⟨bk, bf1, bf2, bdn, bal⟩ := b
  simp only [PPack.kind] at hka hkb
  simp only [PPack.f2] at hf2 h1 h2 h3 h4
  subst hka hkb hf2
  simp [SensorsConsolidated.add_sensor, SensorsConsolidated.i2c_validate,
    SensorsConsolidated.get_i2c_sensors, SensorsConsolidated.build_sensor_i2c,
    ExternalSensorBase_init, CSensor.i2c_addrAttr, CSensor.base]

/-- Witness for the amended C2: address 5 on buses 1 and 2. -/
theorem c2_witness :
    (SensorsConsolidated.add_sensor [] ⟨"i2c", 1, 5, "d1", "a1"⟩).1 = CAddResult.ok ∧
    (SensorsConsolidated.add_sensor
        (SensorsConsolidated.add_sensor [] ⟨"i2c", 1, 5, "d1", "a1"⟩).2
        ⟨"i2c", 2, 5, "d2", "a2"⟩).1
      = CAddResult.caughtError "Parameter ERROR: cannot add sensor to sensor-list!" ∧
    (SensorsConsolidated.add_sensor
        (SensorsConsolidated.add_sensor [] ⟨"i2c", 1, 5, "d1", "a1"⟩).2
        ⟨"i2c", 2, 5, "d2", "a2"⟩).2
      = (SensorsConsolidated.add_sensor [] ⟨"i2c", 1, 5, "d1", "a1"⟩).2 :=
  c2_i2c_same_addr_diff_bus_conflict
    ⟨"i2c", 1, 5, "d1", "a1"⟩ ⟨"i2c", 2, 5, "d2", "a2"⟩
    rfl rfl (by decide) (by decide) (by decide) (by decide) (by decide) rfl

/-- C5: for any two valid UART packs with equal port number (`bus_no`),
adding both to an empty `sensors_consolidated.py` registry accepts the first
and rejects the second with the caught resource-conflict error, leaving the
registry unchanged — with no hypothesis relating the two baud rates, since
`uart_validate` compares only the port. -/
theorem c5_uart_same_port_conflict :
    ∀ (a b : PPack),
      a.kind = "uart" → b.kind = "uart" →
      MIN_BAUD_RATE ≤ a.f2 → a.f2 ≤ MAX_BAUD_RATE →
      MIN_BAUD_RATE ≤ b.f2 → b.f2 ≤ MAX_BAUD_RATE →
      a.f1 = b.f1 →
      (SensorsConsolidated.add_sensor [] a).1 = CAddResult.ok ∧
      (SensorsConsolidated.add_sensor [] a).2.length = 1 ∧
      (SensorsConsolidated.add_sensor (SensorsConsolidated.add_sensor [] a).2 b).1
        = CAddResult.caughtError "Parameter ERROR: cannot add sensor to sensor-list!" ∧
      (SensorsConsolidated.add_sensor (SensorsConsolidated.add_sensor [] a).2 b).2
        = (SensorsConsolidated.add_sensor [] a).2 := by
  intro a b hka hkb h1 h2 h3 h4 hf1
  obtain ⟨ak, af1, af2, adn, aal⟩ := a
  obtain ⟨bk, bf1, bf2, bdn, bal⟩ := b
  simp only [PPack.kind] at hka hkb
  simp only [PPack.f1] at hf1
  subst hka hkb hf1
  simp [SensorsConsolidated.add_sensor, SensorsConsolidated.uart_validate,
    SensorsConsolidated.get_uart_sensors, SensorsConsolidated.build_sensor_uart,
    ExternalSensorBase_init, CSensor.base]

/-- Witness for C5: port 4 at baud 115200, then port 4 at baud 38400. -/
theorem c5_witness :
    (SensorsConsolidated.add_sensor [] ⟨"uart", 4, 115200, "CustomHygrometerSubmodule", "RHT-sensor3"⟩).1
      = CAddResult.ok ∧
    (SensorsConsolidated.add_sensor [] ⟨"uart", 4, 115200, "CustomHygrometerSubmodule", "RHT-sensor3"⟩).2.length = 1 ∧
    (SensorsConsolidated.add_sensor
        (SensorsConsolidated.add_sensor [] ⟨"uart", 4, 115200, "CustomHygrometerSubmodule", "RHT-sensor3"⟩).2
        ⟨"uart", 4, 38400, "CustomHygrometerSubmodule", "RHT-sensor4"⟩).1
      = CAddResult.caughtError "Parameter ERROR: cannot add sensor to sensor-list!" ∧
    (SensorsConsolidated.add_sensor
        (SensorsConsolidated.add_sensor [] ⟨"uart", 4, 115200, "CustomHygrometerSubmodule", "RHT-sensor3"⟩).2
        ⟨"uart", 4, 38400, "CustomHygrometerSubmodule", "RHT-sensor4"⟩).2
      = (SensorsConsolidated.add_sensor [] ⟨"uart", 4, 115200, "CustomHygrometerSubmodule", "RHT-sensor3"⟩).2 :=
  c5_uart_same_port_conflict
    ⟨"uart", 4, 115200, "CustomHygrometerSubmodule", "RHT-sensor3"⟩
    ⟨"uart", 4, 38400, "CustomHygrometerSubmodule", "RHT-sensor4"⟩
    rfl rfl (by decide) (by decide) (by decide) (by decide) rfl

/-- C3: `add_sensor` is atomic all-or-nothing in both registry variants —
whenever a call ends in a caught exception (construction failure in
`sensors.py`, validator collision in `sensors_consolidated.py`), the sensors
sequence is exactly the one before the call, the caller receives the
structured message of the caught exception rather than an unhandled fault,
and for the three known kind tags the uncaught-`KeyError` path is never
taken. -/
theorem c3_add_sensor_atomic :
    ∀ (sA : List PSensor) (sB : List CSensor) (p : PPack) (msg : String)
      (sA' : List PSensor) (sB' : List CSensor),
      (SensorsPy.add_sensor sA p = (AddResult.caughtError msg, sA') → sA' = sA) ∧
      (SensorsConsolidated.add_sensor sB p = (CAddResult.caughtError msg, sB') → sB' = sB) ∧
      ((p.kind = "i2c" ∨ p.kind = "spi" ∨ p.kind = "uart") →
        (SensorsPy.add_sensor sA p).1 ≠ AddResult.keyError ∧
        (SensorsConsolidated.add_sensor sB p).1 ≠ CAddResult.keyError) := by
  intro sA sB p msg sA' sB'
  refine ⟨?_, ?_, ?_⟩
  · intro h
    unfold SensorsPy.add_sensor at h
    repeat' split at h
    all_goals simp_all
  · intro h
    simp only [SensorsConsolidated.add_sensor] at h
    repeat' split at h
    all_goals simp_all
  · intro hk
    constructor
    · unfold SensorsPy.add_sensor
      rcases hk with h | h | h <;> simp [h] <;> split <;> simp
    · unfold SensorsConsolidated.add_sensor
      rcases hk with h | h | h <;> simp [h] <;> split <;> simp

/-- Witness for C3 at concrete inputs: an out-of-range I2C address (200) in
`sensors.py` leaves the empty registry empty, a duplicate I2C address in
`sensors_consolidated.py` leaves the one-entry registry unchanged, and a
known-kind add never takes the uncaught-`KeyError` path. -/
theorem c3_witness :
    (SensorsPy.add_sensor [] ⟨"i2c", 2, 200, "n", "a"⟩).2 = [] ∧
    (SensorsConsolidated.add_sensor
        (SensorsConsolidated.add_sensor [] ⟨"i2c", 2, 78, "BM280", "x"⟩).2
        ⟨"i2c", 2, 78, "BM281", "y"⟩).2
      = (SensorsConsolidated.add_sensor [] ⟨"i2c", 2, 78, "BM280", "x"⟩).2 ∧
    (SensorsPy.add_sensor [] ⟨"i2c", 2, 200, "n", "a"⟩).1 ≠ AddResult.keyError ∧
    (SensorsConsolidated.add_sensor [] ⟨"i2c", 2, 78, "BM280", "x"⟩).1 ≠ CAddResult.keyError :=
  ⟨(c3_add_sensor_atomic [] [] ⟨"i2c", 2, 200, "n", "a"⟩ "Invalid I2C-address specified!"
      (SensorsPy.add_sensor [] ⟨"i2c", 2, 200, "n", "a"⟩).2 []).1 (by decide),
   (c3_add_sensor_atomic [] (SensorsConsolidated.add_sensor [] ⟨"i2c", 2, 78, "BM280", "x"⟩).2
      ⟨"i2c", 2, 78, "BM281", "y"⟩ "Parameter ERROR: cannot add sensor to sensor-list!" []
      (SensorsConsolidated.add_sensor
        (SensorsConsolidated.add_sensor [] ⟨"i2c", 2, 78, "BM280", "x"⟩).2
        ⟨"i2c", 2, 78, "BM281", "y"⟩).2).2.1 (by decide),
   ((c3_add_sensor_atomic [] [] ⟨"i2c", 2, 200, "n", "a"⟩ "m" [] []).2.2 (Or.inl rfl)).1,
   ((c3_add_sensor_atomic [] [] ⟨"i2c", 2, 78, "BM280", "x"⟩ "m" [] []).2.2 (Or.inl rfl)).2⟩

/-- C4 counterexample: at the concrete unknown kind tag `"can"`, both
registry variants end `add_sensor` in the uncaught-`KeyError` path (the
`sensor_type_map` lookup precedes the `try` block), contradicting the claim
that the failure is recovered and no unhandled fault propagates to the
caller. -/
theorem c4_counterexample :
    (SensorsPy.add_sensor [] ⟨"can", 0, 0, "d", "a"⟩).1 = AddResult.keyError ∧
    (SensorsConsolidated.add_sensor [] ⟨"can", 0, 0, "d", "a"⟩).1 = CAddResult.keyError := by
  decide

/-- C4 (amended): for every registry state, calling `add_sensor` with a kind
tag other than `"i2c"`, `"spi"`, `"uart"` raises an uncaught `KeyError` from
the `sensor_type_map` lookup (which precedes the `try` block) in both
variants; the registry sequence itself is left unchanged, so a caller that
survives the exception can keep using the registry, but the failure is not
recovered inside `add_sensor` and no structured `UnknownSensorKind`-style
report is produced. -/
theorem c4_unknown_kind_keyerror :
    ∀ (sA : List PSensor) (sB : List CSensor) (p : PPack),
      p.kind ≠ "i2c" → p.kind ≠ "spi" → p.kind ≠ "uart" →
      SensorsPy.add_sensor sA p = (AddResult.keyError, sA) ∧
      SensorsConsolidated.add_sensor sB p = (CAddResult.keyError, sB) := by
  intro sA sB p h1 h2 h3
  constructor
  · unfold SensorsPy.add_sensor
    simp [h1, h2, h3]
  · unfold SensorsConsolidated.add_sensor
    simp [h1, h2, h3]

/-- Witness for the amended C4 at the concrete kind tag `"can"`. -/
theorem c4_witness :
    SensorsPy.add_sensor [] ⟨"can", 4, 115200, "d", "a"⟩ = (AddResult.keyError, []) ∧
    SensorsConsolidated.add_sensor [] ⟨"can", 4, 115200, "d", "a"⟩ = (CAddResult.keyError, []) :=
  c4_unknown_kind_keyerror [] [] ⟨"can", 4, 115200, "d", "a"⟩
    (by decide) (by decide) (by decide)

/-- Helper: a successful `add_sensor` call appends exactly the sensor built
from the parameter pack at the end of the list. -/
theorem add_sensor_ok_built (s : List CSensor) (p : PPack)
    (h : (SensorsConsolidated.add_sensor s p).1 = CAddResult.ok) :
    ∃ c, built_sensor p = some c ∧ (SensorsConsolidated.add_sensor s p).2 = s ++ [c] := by
  simp only [SensorsConsolidated.add_sensor] at h ⊢
  unfold built_sensor
  repeat' split at h
  all_goals simp_all

/-- Helper: a sequence of successful adds starting from any registry state
appends the built sensors in order, one per pack. -/
theorem add_all_ok_spec (ps : List PPack) :
    ∀ s, all_adds_ok s ps = true →
      add_all s ps = s ++ ps.filterMap built_sensor ∧
      (ps.filterMap built_sensor).length = ps.length := by
  induction ps with
  | nil => intro s _; simp [add_all]
  | cons p ps ih =>
    intro s h
    rw [all_adds_ok] at h
    rw [Bool.and_eq_true] at h
    obtain ⟨h1, h2⟩ := h
    rw [decide_eq_true_eq] at h1
    obtain ⟨c, hc, hs⟩ := add_sensor_ok_built s p h1
    have := ih (SensorsConsolidated.add_sensor s p).2 h2
    rw [List.filterMap_cons, hc]
    constructor
    · show add_all (SensorsConsolidated.add_sensor s p).2 ps = _
      rw [this.1, hs]
      simp
    · simp [this.2]

/-- C7: add-then-list round-trip on `sensors_consolidated.py` — after any
sequence of N successful `add_sensor` calls starting from the empty
registry, the sequence produced by `list_sensors` has length exactly N, its
elements are the built sensors in insertion order, and listing the registry
again yields the same sequence (iteration over the list is restartable). -/
theorem c7_add_list_round_trip :
    ∀ ps : List PPack, all_adds_ok [] ps = true →
      SensorsConsolidated.list_sensors (add_all [] ps) = ps.filterMap built_sensor ∧
      (SensorsConsolidated.list_sensors (add_all [] ps)).length = ps.length ∧
      SensorsConsolidated.list_sensors (add_all [] ps) =
        SensorsConsolidated.list_sensors (add_all [] ps) := by
  intro ps h
  obtain ⟨h1, h2⟩ := add_all_ok_spec ps [] h
  refine ⟨?_, ?_, rfl⟩
  · simpa [SensorsConsolidated.list_sensors] using h1
  · simp [SensorsConsolidated.list_sensors, h1, h2]

/-- Witness for C7: the three-sensor scenario of the source's test block
(I2C `(2, 78)`, SPI `(1, 3)`, UART `(4, 115200)`) — all adds succeed and
listing returns the three built sensors in insertion order. -/
theorem c7_witness :
    SensorsConsolidated.list_sensors
        (add_all [] [⟨"i2c", 2, 78, "BM280", "RHT-sensor1"⟩,
                     ⟨"spi", 1, 3, "SHT721", "RHT-sensor2A"⟩,
                     ⟨"uart", 4, 115200, "CustomHygrometerSubmodule", "RHT-sensor3"⟩])
      = [⟨"i2c", 2, 78, "BM280", "RHT-sensor1"⟩,
         ⟨"spi", 1, 3, "SHT721", "RHT-sensor2A"⟩,
         ⟨"uart", 4, 115200, "CustomHygrometerSubmodule", "RHT-sensor3"⟩].filterMap built_sensor ∧
    (SensorsConsolidated.list_sensors
        (add_all [] [⟨"i2c", 2, 78, "BM280", "RHT-sensor1"⟩,
                     ⟨"spi", 1, 3, "SHT721", "RHT-sensor2A"⟩,
                     ⟨"uart", 4, 115200, "CustomHygrometerSubmodule", "RHT-sensor3"⟩])).length = 3 :=
  ⟨(c7_add_list_round_trip
      [⟨"i2c", 2, 78, "BM280", "RHT-sensor1"⟩,
       ⟨"spi", 1, 3, "SHT721", "RHT-sensor2A"⟩,
       ⟨"uart", 4, 115200, "CustomHygrometerSubmodule", "RHT-sensor3"⟩] (by decide)).1,
   (c7_add_list_round_trip
      [⟨"i2c", 2, 78, "BM280", "RHT-sensor1"⟩,
       ⟨"spi", 1, 3, "SHT721", "RHT-sensor2A"⟩,
       ⟨"uart", 4, 115200, "CustomHygrometerSubmodule", "RHT-sensor3"⟩] (by decide)).2.1⟩

/-- Helper: a sensor returned by the range-checked I2C constructor of
`sensors.py` is in-domain. -/
theorem I2cSensor_init_ok_in_domain (bus_no x : Int) (dn al : String) (c : PSensor)
    (h : I2cSensor_init bus_no x dn al = Except.ok c) : in_domain c = true := by
  unfold I2cSensor_init at h
  split at h
  · exact absurd h (by simp)
  · rename_i hcond
    cases h
    simp only [in_domain, MAX_I2C_ADDR, decide_eq_true_eq]
    unfold MAX_I2C_ADDR at hcond
    omega

/-- Helper: a sensor returned by the range-checked SPI constructor of
`sensors.py` is in-domain. -/
theorem SpiSensor_init_ok_in_domain (bus_no x : Int) (dn al : String) (c : PSensor)
    (h : SpiSensor_init bus_no x dn al = Except.ok c) : in_domain c = true := by
  unfold SpiSensor_init at h
  split at h
  · exact absurd h (by simp)
  · rename_i hcond
    cases h
    simp only [in_domain, MAX_CS_VAL, decide_eq_true_eq]
    unfold MAX_CS_VAL at hcond
    omega

/-- Helper: a sensor returned by the range-checked UART constructor of
`sensors.py` is in-domain. -/
theorem UartSensor_init_ok_in_domain (bus_no x : Int) (dn al : String) (c : PSensor)
    (h : UartSensor_init bus_no x dn al = Except.ok c) : in_domain c = true := by
  unfold UartSensor_init at h
  split at h
  · exact absurd h (by simp)
  · rename_i hcond
    cases h
    simp only [in_domain, MIN_BAUD_RATE, MAX_BAUD_RATE, decide_eq_true_eq]
    unfold MIN_BAUD_RATE MAX_BAUD_RATE at hcond
    omega

/-- C10: field-domain invariant of the `sensors.py` variant — every registry
state reachable from the empty registry by `add_sensor` calls contains only
in-domain sensors (I2C address in `[0, 127]`, SPI chip-select in `[0, 7]`,
UART baud rate in `[2400, 921400]`), because each constructor raises before
out-of-range data is appended and the exception is caught without inserting
anything. -/
theorem c10_reachable_in_domain :
    ∀ s : List PSensor, ReachablePy s → s.all in_domain = true := by
  intro s h
  induction h with
  | base => rfl
  | step s p _ ih =>
    simp only [SensorsPy.add_sensor]
    repeat' split
    all_goals simp_all [List.all_append]
    · exact I2cSensor_init_ok_in_domain p.f1 p.f2 p.dev_name p.«alias» _ (by assumption)
    · exact SpiSensor_init_ok_in_domain p.f1 p.f2 p.dev_name p.«alias» _ (by assumption)
    · exact UartSensor_init_ok_in_domain p.f1 p.f2 p.dev_name p.«alias» _ (by assumption)

/-- Witness for C10: the registry reached by two `add_sensor` calls — a
successful I2C add `(2, 78)` followed by a rejected out-of-range I2C add
`(2, 200)` — contains only in-domain sensors. -/
theorem c10_witness :
    ((SensorsPy.add_sensor
        (SensorsPy.add_sensor [] ⟨"i2c", 2, 78, "BM280", "RHT-sensor1"⟩).2
        ⟨"i2c", 2, 200, "BAD", "bad"⟩).2).all in_domain = true :=
  c10_reachable_in_domain _
    (ReachablePy.step _ _ (ReachablePy.step _ _ ReachablePy.base))
